import Mathlib

/-!
# Plyvel callback comparator (`plyvel/comparator.cpp`)

A shallow embedding of `PlyvelCallbackComparator`, the adapter that lets a Python
callable act as a LevelDB comparator, together with the properties of it that the
specification states.

The C++ code talks to the CPython runtime through a handful of C-API functions.
Those functions are not part of the repository; what they answer is taken as a
parameter (`PyRuntime`), and the bookkeeping the C-API documents for them
(reference counts, the error indicator, the GIL state counter) is kept in an
explicit `PyState` that every operation passes along.  A process that called
`abort()` is an `Outcome.aborted`, one that was ended by `exit` an `Outcome.exited`: both
carry the last state and no value.

What is assumed of the runtime, as the C-API documents it:
* a call that fails returns its error value (`NULL`, `-1`) and sets the error indicator
  to the exception it raised;
* a call that succeeds without running Python code leaves the indicator as it was; the
  Python code run by a call of the callable or by a rich comparison may clear an error
  that was pending when it started (it can raise and catch an exception of its own);
* `PyErr_Print` prints the pending error and clears the indicator, unless the error is a
  `SystemExit`: then it prints nothing and ends the process with the status of the
  `SystemExit`, and does not return;
* a function that returns a new reference has added one to the count of the object;
* `PyLong_FromLong(0)` does not fail (the small ints are allocated at start-up);
* `PyObject_RichCompareBool` compares two ints by value;
* a byte view is the list of its `size()` bytes, zero bytes included.
-/

namespace Plyvel

/-! ## Data model -/

/-- One byte of a key. -/
abbrev Byte := Fin 256

/-- A `leveldb::Slice`: the `size()` bytes that start at `data()`. -/
abbrev Slice := List Byte

/-- A `PyObject*` that is not `NULL`.  The address is the identity of the object (and the
key of its reference count); a bytes object carries its immutable contents and an int
object its value.  Every other Python object is an `object`. -/
inductive PyObject where
  | bytes (addr : Nat) (data : List Byte)
  | long (addr : Nat) (value : Int)
  | object (addr : Nat)
deriving DecidableEq

/-- Address of an object. -/
def PyObject.addr : PyObject → Nat
  | .bytes p _ => p
  | .long p _ => p
  | .object p => p

/-- The two rich-comparison operators the adapter uses. -/
inductive CmpOp where
  | Py_LT
  | Py_GT
deriving DecidableEq

/-- A raised Python exception, as far as `PyErr_Print` tells exceptions apart: a
`SystemExit` with the exit status it asks for, or anything else. -/
inductive PyExc where
  | SystemExit (status : Int)
  | other
deriving DecidableEq

/-- Value of `PyGILState_Ensure`: whether the thread already held the GIL. -/
inductive PyGILState_STATE where
  | PyGILState_LOCKED
  | PyGILState_UNLOCKED
deriving DecidableEq

/-- One call into the C-API or the C library, in the order the calls are made. -/
inductive Event where
  | incref (o : PyObject)
  | decref (o : PyObject)
  | longFromLong (n : Int)
  | initThreads
  | gilEnsure
  | gilRelease
  | bytesFromStringAndSize (data : List Byte)
  | callFunctionObjArgs (callable a b : PyObject)
  | richCompareBool (v w : PyObject) (op : CmpOp)
  | errOccurred
  | errPrint
  | exit (status : Int)
  | abort
deriving DecidableEq

/-- The part of the process state the adapter reads or writes. -/
structure PyState where
  /-- reference count of the object at each address -/
  refcnt : Nat → Nat
  /-- the error indicator of the thread: what `PyErr_Occurred` tests -/
  errorIndicator : Bool
  /-- the exception the indicator stands for while it is set -/
  pending : PyExc
  /-- outstanding `PyGILState_Ensure` calls of the thread -/
  gilDepth : Nat
  /-- set once `PyEval_InitThreads` has run -/
  threadsReady : Bool
  /-- number of byte strings requested so far -/
  allocations : Nat
  /-- lines written to `std::cerr` -/
  stderr : List String
  /-- the calls made so far, oldest first -/
  trace : List Event

/-- What the CPython runtime answers.  Nothing of this is in the repository, so it is a
parameter of the embedding.
* `longAddr n`: address of the int object `PyLong_FromLong(n)` hands out;
* `bytesAddr k data`: address of the bytes object made by the `k`-th request, `none` when
  the allocation fails (`PyBytes_FromStringAndSize` returns `NULL`);
* `call f x y`: what calling `f(x, y)` returns, `none` when it raises;
* `callExc f x y`: the exception `f(x, y)` raises when it raises;
* `callClears f x y`: whether a run of `f(x, y)` that returns clears an error that was
  pending when it started;
* `callRefs f x y`: what running `f(x, y)` does to the reference counts, apart from the
  new reference to its result;
* `richCompare v w op`: whether `v op w` holds for objects that are not both ints, `none`
  when the comparison raises;
* `richCompareExc v w op`: the exception the comparison raises when it raises;
* `richCompareClears v w op`: whether a comparison of objects that are not both ints, when
  it answers, clears an error that was pending when it started. -/
structure PyRuntime where
  longAddr : Int → Nat
  bytesAddr : Nat → List Byte → Option Nat
  call : PyObject → PyObject → PyObject → Option PyObject
  callExc : PyObject → PyObject → PyObject → PyExc
  callClears : PyObject → PyObject → PyObject → Bool
  callRefs : PyObject → PyObject → PyObject → (Nat → Nat) → (Nat → Nat)
  richCompare : PyObject → PyObject → CmpOp → Option Bool
  richCompareExc : PyObject → PyObject → CmpOp → PyExc
  richCompareClears : PyObject → PyObject → CmpOp → Bool

/-- How a call ends: it returns a value, or the process was terminated by `abort()`, or
the process was ended by `exit(status)`. -/
inductive Outcome (α : Type) where
  | returned (value : α) (st : PyState)
  | aborted (st : PyState)
  | exited (status : Int) (st : PyState)

/-- The returned value, if the call returned. -/
def Outcome.value? {α : Type} : Outcome α → Option α
  | .returned v _ => some v
  | .aborted _ => none
  | .exited _ _ => none

/-- The state the call ended in. -/
def Outcome.state {α : Type} : Outcome α → PyState
  | .returned _ s => s
  | .aborted s => s
  | .exited _ s => s

/-- Whether the process was terminated by `abort()`. -/
def Outcome.isAborted {α : Type} : Outcome α → Bool
  | .returned _ _ => false
  | .aborted _ => true
  | .exited _ _ => false

/-- Whether the process ended instead of the call returning. -/
def Outcome.isTerminated {α : Type} : Outcome α → Bool
  | .returned _ _ => false
  | .aborted _ => true
  | .exited _ _ => true

/-! ## The C-API functions the adapter calls -/

/-- Append one call to the trace. -/
def PyState.log (s : PyState) (e : Event) : PyState :=
  { s with trace := s.trace ++ [e] }

/-- `Py_INCREF(o)`. -/
def Py_INCREF (o : PyObject) (s : PyState) : PyState :=
  { s with
    refcnt := fun p => if p = o.addr then s.refcnt p + 1 else s.refcnt p
    trace := s.trace ++ [Event.incref o] }

/-- `Py_DECREF(o)`.  (Deallocation at count zero is not modelled.) -/
def Py_DECREF (o : PyObject) (s : PyState) : PyState :=
  { s with
    refcnt := fun p => if p = o.addr then s.refcnt p - 1 else s.refcnt p
    trace := s.trace ++ [Event.decref o] }

/-- `PyLong_FromLong(n)`: a new reference to the int object of value `n`. -/
def PyLong_FromLong (rt : PyRuntime) (n : Int) (s : PyState) : PyObject × PyState :=
  (PyObject.long (rt.longAddr n) n,
   { s with
     refcnt := fun p => if p = rt.longAddr n then s.refcnt p + 1 else s.refcnt p
     trace := s.trace ++ [Event.longFromLong n] })

/-- `PyEval_InitThreads()`: idempotent. -/
def PyEval_InitThreads (s : PyState) : PyState :=
  { s with threadsReady := true, trace := s.trace ++ [Event.initThreads] }

/-- `PyGILState_Ensure()`. -/
def PyGILState_Ensure (s : PyState) : PyGILState_STATE × PyState :=
  (if s.gilDepth = 0 then PyGILState_STATE.PyGILState_UNLOCKED
   else PyGILState_STATE.PyGILState_LOCKED,
   { s with gilDepth := s.gilDepth + 1, trace := s.trace ++ [Event.gilEnsure] })

/-- `PyGILState_Release(gstate)`. -/
def PyGILState_Release (_gstate : PyGILState_STATE) (s : PyState) : PyState :=
  { s with gilDepth := s.gilDepth - 1, trace := s.trace ++ [Event.gilRelease] }

/-- `PyBytes_FromStringAndSize(v.data(), v.size())`: a new reference to a bytes object that
holds exactly the bytes of the view, or `NULL` (`none`) with the error indicator set (to a
`MemoryError`, or a `SystemError` for a size that does not fit; never a `SystemExit`). -/
def PyBytes_FromStringAndSize (rt : PyRuntime) (v : Slice) (s : PyState) :
    Option PyObject × PyState :=
  match rt.bytesAddr s.allocations v with
  | some p =>
    (some (PyObject.bytes p v),
     { s with
       refcnt := fun q => if q = p then s.refcnt q + 1 else s.refcnt q
       allocations := s.allocations + 1
       trace := s.trace ++ [Event.bytesFromStringAndSize v] })
  | none =>
    (none,
     { s with
       errorIndicator := true
       pending := PyExc.other
       allocations := s.allocations + 1
       trace := s.trace ++ [Event.bytesFromStringAndSize v] })

/-- `PyObject_CallFunctionObjArgs(callable, x, y, 0)`: a new reference to the result, or
`NULL` (`none`) with the error indicator set when the callable raised. -/
def PyObject_CallFunctionObjArgs (rt : PyRuntime) (callable x y : PyObject) (s : PyState) :
    Option PyObject × PyState :=
  match rt.call callable x y with
  | some r =>
    (some r,
     { s with
       refcnt := fun p =>
         if p = r.addr then rt.callRefs callable x y s.refcnt p + 1
         else rt.callRefs callable x y s.refcnt p
       errorIndicator := s.errorIndicator && !rt.callClears callable x y
       trace := s.trace ++ [Event.callFunctionObjArgs callable x y] })
  | none =>
    (none,
     { s with
       refcnt := rt.callRefs callable x y s.refcnt
       errorIndicator := true
       pending := rt.callExc callable x y
       trace := s.trace ++ [Event.callFunctionObjArgs callable x y] })

/-- What comparing `v op w` gives: ints compare by value, everything else as the runtime
says; `none` when the comparison raises. -/
def richCompareValue (rt : PyRuntime) (v w : PyObject) (op : CmpOp) : Option Bool :=
  match v, w, op with
  | .long _ m, .long _ n, .Py_GT => some (decide (n < m))
  | .long _ m, .long _ n, .Py_LT => some (decide (m < n))
  | _, _, _ => rt.richCompare v w op

/-- Whether a comparison `v op w` that answers clears an error that was pending when it
started: comparing two ints runs no Python code and clears nothing, for everything else
the runtime says. -/
def richCompareClearsError (rt : PyRuntime) (v w : PyObject) (op : CmpOp) : Bool :=
  match v, w with
  | .long _ _, .long _ _ => false
  | _, _ => rt.richCompareClears v w op

/-- `PyObject_RichCompareBool(v, w, op)`: `1` when `v op w` is true, `0` when it is false,
`-1` with the error indicator set when the comparison raised.  A comparison that answers
leaves the indicator as it was unless the code it ran cleared it. -/
def PyObject_RichCompareBool (rt : PyRuntime) (v w : PyObject) (op : CmpOp) (s : PyState) :
    Int × PyState :=
  match richCompareValue rt v w op with
  | some true =>
    (1, { s with
          errorIndicator := s.errorIndicator && !richCompareClearsError rt v w op
          trace := s.trace ++ [Event.richCompareBool v w op] })
  | some false =>
    (0, { s with
          errorIndicator := s.errorIndicator && !richCompareClearsError rt v w op
          trace := s.trace ++ [Event.richCompareBool v w op] })
  | none =>
    (-1, { s with
           errorIndicator := true
           pending := rt.richCompareExc v w op
           trace := s.trace ++ [Event.richCompareBool v w op] })

/-- `PyErr_Occurred()`: whether the error indicator is set. -/
def PyErr_Occurred (s : PyState) : Bool × PyState :=
  (s.errorIndicator, s.log Event.errOccurred)

/-- `PyErr_Print()`: prints the pending Python error (to Python's `sys.stderr`) and clears
the indicator; when the pending error is a `SystemExit` it prints nothing and ends the
process with the status of the `SystemExit` instead of returning. -/
def PyErr_Print (s : PyState) : Outcome Unit :=
  if s.errorIndicator then
    match s.pending with
    | PyExc.SystemExit status =>
      Outcome.exited status
        { s with trace := s.trace ++ [Event.errPrint, Event.exit status] }
    | PyExc.other =>
      Outcome.returned () { s with errorIndicator := false, trace := s.trace ++ [Event.errPrint] }
  else
    Outcome.returned () { s with trace := s.trace ++ [Event.errPrint] }

/-! ## The adapter -/

/-- The fields of `PlyvelCallbackComparator`. -/
structure PlyvelCallbackComparator where
  name : String
  comparator : PyObject
  zero : PyObject

/-- The constructor, reached through `NewPlyvelCallbackComparator(name, comparator)`. -/
def NewPlyvelCallbackComparator (rt : PyRuntime) (name : String) (comparator : PyObject)
    (s : PyState) : PlyvelCallbackComparator × PyState :=
  let s1 := Py_INCREF comparator s
  let z := PyLong_FromLong rt 0 s1
  let s3 := PyEval_InitThreads z.2
  ({ name := name, comparator := comparator, zero := z.1 }, s3)

/-- The destructor. -/
def destroy (self : PlyvelCallbackComparator) (s : PyState) : PyState :=
  Py_DECREF self.zero (Py_DECREF self.comparator s)

/-- `bailout(message)`: print the Python error, two lines on `std::cerr`, `abort()`.  When
`PyErr_Print` ends the process the lines that follow it are not reached. -/
def bailout {α : Type} (_self : PlyvelCallbackComparator) (message : String) (s : PyState) :
    Outcome α :=
  match PyErr_Print s with
  | Outcome.returned _ s1 =>
    let s2 := { s1 with stderr := s1.stderr ++ ["FATAL ERROR: " ++ message] }
    let s3 := { s2 with stderr := s2.stderr ++ ["Aborting to avoid database corruption..."] }
    Outcome.aborted (s3.log Event.abort)
  | Outcome.aborted s1 => Outcome.aborted s1
  | Outcome.exited status s1 => Outcome.exited status s1

/-- `Compare(a, b)`. -/
def Compare (rt : PyRuntime) (self : PlyvelCallbackComparator) (a b : Slice) (s : PyState) :
    Outcome Int :=
  let g := PyGILState_Ensure s
  let gstate := g.1
  let ra := PyBytes_FromStringAndSize rt a g.2
  let rb := PyBytes_FromStringAndSize rt b ra.2
  match ra.1, rb.1 with
  | some bytes_a, some bytes_b =>
    let rc := PyObject_CallFunctionObjArgs rt self.comparator bytes_a bytes_b rb.2
    match rc.1 with
    | none => bailout self "Exception raised from custom Plyvel comparator" rc.2
    | some compare_result =>
      let gt := PyObject_RichCompareBool rt compare_result self.zero CmpOp.Py_GT rc.2
      let ret : Int × PyState :=
        if gt.1 = 1 then (1, gt.2)
        else
          let lt := PyObject_RichCompareBool rt compare_result self.zero CmpOp.Py_LT gt.2
          if lt.1 = 1 then (-1, lt.2) else (0, lt.2)
      let e := PyErr_Occurred ret.2
      if e.1 then
        bailout self
          "Exception raised while comparing custom Plyvel comparator result with 0" e.2
      else
        let s1 := Py_DECREF compare_result e.2
        let s2 := Py_DECREF bytes_a s1
        let s3 := Py_DECREF bytes_b s2
        let s4 := PyGILState_Release gstate s3
        Outcome.returned ret.1 s4
  | _, _ => bailout self "Plyvel comparator could not allocate byte strings" rb.2

/-- `Name()`. -/
def Name (self : PlyvelCallbackComparator) (s : PyState) : String × PyState :=
  (self.name, s)

/-- `FindShortestSeparator(start, limit)`: the body is empty; the result is the contents of
`*start` afterwards. -/
def FindShortestSeparator (_self : PlyvelCallbackComparator) (start : List Byte)
    (_limit : Slice) (s : PyState) : List Byte × PyState :=
  (start, s)

/-- `FindShortSuccessor(key)`: the body is empty; the result is the contents of `*key`
afterwards. -/
def FindShortSuccessor (_self : PlyvelCallbackComparator) (key : List Byte) (s : PyState) :
    List Byte × PyState :=
  (key, s)

/-! ## Sequences of calls on one adapter -/

/-- One call the storage engine makes on the adapter. -/
inductive Request where
  | name
  | compare (a b : Slice)
  | findShortestSeparator (start : List Byte) (limit : Slice)
  | findShortSuccessor (key : List Byte)

/-- What a call hands back: the name, the ordering, or the contents of the buffer that was
passed for update. -/
inductive Reply where
  | name (value : String)
  | compare (value : Int)
  | buffer (contents : List Byte)
deriving DecidableEq

/-- Run one call. -/
def serve (rt : PyRuntime) (self : PlyvelCallbackComparator) (q : Request) (s : PyState) :
    Outcome Reply :=
  match q with
  | Request.name => Outcome.returned (Reply.name (Name self s).1) (Name self s).2
  | Request.compare a b =>
    match Compare rt self a b s with
    | Outcome.returned v s1 => Outcome.returned (Reply.compare v) s1
    | Outcome.aborted s1 => Outcome.aborted s1
    | Outcome.exited status s1 => Outcome.exited status s1
  | Request.findShortestSeparator start limit =>
    Outcome.returned (Reply.buffer (FindShortestSeparator self start limit s).1)
      (FindShortestSeparator self start limit s).2
  | Request.findShortSuccessor key =>
    Outcome.returned (Reply.buffer (FindShortSuccessor self key s).1)
      (FindShortSuccessor self key s).2

/-- Run the calls in order on the same adapter; nothing runs once the process ended.  The
result is the replies received and how the sequence ended. -/
def serveAll (rt : PyRuntime) (self : PlyvelCallbackComparator) :
    List Request → PyState → List Reply × Outcome Unit
  | [], s => ([], Outcome.returned () s)
  | q :: qs, s =>
    match serve rt self q s with
    | Outcome.returned r s1 => (r :: (serveAll rt self qs s1).1, (serveAll rt self qs s1).2)
    | Outcome.aborted s1 => ([], Outcome.aborted s1)
    | Outcome.exited status s1 => ([], Outcome.exited status s1)

/-- The objects released by `Py_DECREF` in a list of calls, in order. -/
def decrefs : List Event → List PyObject
  | [] => []
  | Event.decref o :: es => o :: decrefs es
  | _ :: es => decrefs es

/-! ## Concrete runtimes used to evaluate the adapter -/

/-- A state to start from: every object has one owner, nothing is pending. -/
def bootState : PyState :=
  { refcnt := fun _ => 1
    errorIndicator := false
    pending := PyExc.other
    gilDepth := 0
    threadsReady := false
    allocations := 0
    stderr := []
    trace := [] }

/-- Address of the int object of value `n` in the concrete runtimes. -/
def smallIntAddr (n : Int) : Nat :=
  100 + 2 * n.natAbs + (if n < 0 then 1 else 0)

/-- A runtime that answers from a script: the callable returns `result` (raises when
`none`), the result compares with anything as `gt` and `lt` say, and the `k`-th byte string
cannot be allocated when `failAlloc k`.  What is raised is never a `SystemExit`, and no
pending error is cleared. -/
def scriptedRuntime (result : Option PyObject) (gt lt : Option Bool) (failAlloc : Nat → Bool) :
    PyRuntime :=
  { longAddr := smallIntAddr
    bytesAddr := fun k _ => if failAlloc k then none else some (10 + k)
    call := fun _ _ _ => result
    callExc := fun _ _ _ => PyExc.other
    callClears := fun _ _ _ => false
    callRefs := fun _ _ _ refs => refs
    richCompare := fun _ _ op =>
      match op with
      | CmpOp.Py_GT => gt
      | CmpOp.Py_LT => lt
    richCompareExc := fun _ _ _ => PyExc.other
    richCompareClears := fun _ _ _ => false }

/-- A runtime whose callable returns the object at address 50, whose `__gt__` raises and
whose `__lt__` raises and catches an exception of its own, which clears the pending
error, and then answers `lt`. -/
def clearingRuntime (lt : Bool) : PyRuntime :=
  { longAddr := smallIntAddr
    bytesAddr := fun k _ => some (10 + k)
    call := fun _ _ _ => some (PyObject.object 50)
    callExc := fun _ _ _ => PyExc.other
    callClears := fun _ _ _ => false
    callRefs := fun _ _ _ refs => refs
    richCompare := fun _ _ op =>
      match op with
      | CmpOp.Py_GT => none
      | CmpOp.Py_LT => some lt
    richCompareExc := fun _ _ _ => PyExc.other
    richCompareClears := fun _ _ op =>
      match op with
      | CmpOp.Py_GT => false
      | CmpOp.Py_LT => true }

/-- A runtime in which every call of the callable returns the same object, for which both
`r > 0` and `r < 0` are true. -/
def bothRuntime : PyRuntime :=
  scriptedRuntime (some (PyObject.object 50)) (some true) (some true) (fun _ => false)

/-- The bytes of `"apple"`. -/
def apple : Slice := [97, 112, 112, 108, 101]

/-- The bytes of `"banana"`. -/
def banana : Slice := [98, 97, 110, 97, 110, 97]

/-- An adapter as the constructor leaves it, around the function object at address 7. -/
def sampleAdapter : PlyvelCallbackComparator :=
  { name := "plyvel.test", comparator := PyObject.object 7, zero := PyObject.long 100 0 }

/-- Three-way lexicographic comparison of byte strings, as `memcmp` followed by a comparison
of the lengths: `-1`, `0` or `1`. -/
def lexCompare : List Byte → List Byte → Int
  | [], [] => 0
  | [], _ :: _ => -1
  | _ :: _, [] => 1
  | x :: xs, y :: ys => if x < y then -1 else if y < x then 1 else lexCompare xs ys

/-- A Python callable implementing plain lexicographic byte ordering: called on two bytes
objects it returns the int `lexCompare` of the contents, on anything else it raises. -/
def lexCallable : PyObject → PyObject → Option PyObject
  | PyObject.bytes _ u, PyObject.bytes _ v =>
    some (PyObject.long (smallIntAddr (lexCompare u v)) (lexCompare u v))
  | _, _ => none

/-- A runtime whose callables all are `lexCallable`.  Objects that are not ints cannot be
compared with an int. -/
def lexRuntime : PyRuntime :=
  { longAddr := smallIntAddr
    bytesAddr := fun k _ => some (10 + k)
    call := fun _ x y => lexCallable x y
    callExc := fun _ _ _ => PyExc.other
    callClears := fun _ _ _ => false
    callRefs := fun _ _ _ refs => refs
    richCompare := fun _ _ _ => none
    richCompareExc := fun _ _ _ => PyExc.other
    richCompareClears := fun _ _ _ => false }

/-- The callable is a consistent comparator: called on two bytes objects it returns
without raising, its results compare with `zero` without raising, and the result for
`(y, x)` is greater than zero exactly when the result for `(x, y)` is less than zero, and
less than zero exactly when the result for `(x, y)` is greater than zero. -/
def ConsistentComparator (rt : PyRuntime) (f zero : PyObject) : Prop :=
  ∀ (px py qx qy : Nat) (x y : List Byte),
    ∃ (r r' : PyObject) (g l : Bool),
      rt.call f (PyObject.bytes px x) (PyObject.bytes py y) = some r
      ∧ rt.call f (PyObject.bytes qy y) (PyObject.bytes qx x) = some r'
      ∧ richCompareValue rt r zero CmpOp.Py_GT = some g
      ∧ richCompareValue rt r zero CmpOp.Py_LT = some l
      ∧ richCompareValue rt r' zero CmpOp.Py_GT = some l
      ∧ richCompareValue rt r' zero CmpOp.Py_LT = some g

/-- No result of the callable is both greater than zero and less than zero. -/
def ExclusiveResults (rt : PyRuntime) (f zero : PyObject) : Prop :=
  ∀ (px py : Nat) (x y : List Byte) (r : PyObject),
    rt.call f (PyObject.bytes px x) (PyObject.bytes py y) = some r →
    ¬ (richCompareValue rt r zero CmpOp.Py_GT = some true
        ∧ richCompareValue rt r zero CmpOp.Py_LT = some true)

/-- The callable implements plain lexicographic byte ordering: called on two bytes objects
it returns an int that is negative, zero or positive as the contents of the first are
lexicographically less than, equal to or greater than the contents of the second. -/
def LexicographicComparator (rt : PyRuntime) (f : PyObject) : Prop :=
  ∀ (px py : Nat) (x y : List Byte),
    ∃ (p : Nat) (n : Int),
      rt.call f (PyObject.bytes px x) (PyObject.bytes py y) = some (PyObject.long p n)
      ∧ (n < 0 ↔ List.Lex (fun u v => u < v) x y)
      ∧ (n = 0 ↔ x = y)
      ∧ (0 < n ↔ List.Lex (fun u v => u < v) y x)

/-! ## Properties of `Compare` -/

/-- The calls `Compare` makes when it returns: `g` tells whether the greater-than check
was true, in which case the less-than check is not made. -/
def returningTrace (self : PlyvelCallbackComparator) (a b : Slice) (bytes_a bytes_b r : PyObject)
    (g : Bool) : List Event :=
  [Event.gilEnsure, Event.bytesFromStringAndSize a, Event.bytesFromStringAndSize b,
   Event.callFunctionObjArgs self.comparator bytes_a bytes_b,
   Event.richCompareBool r self.zero CmpOp.Py_GT]
  ++ (if g then [] else [Event.richCompareBool r self.zero CmpOp.Py_LT])
  ++ [Event.errOccurred, Event.decref r, Event.decref bytes_a, Event.decref bytes_b,
      Event.gilRelease]

/-- C1: when no Python error is pending, both byte strings are allocated, the callable
returns `r`, and the comparisons of `r` with the sentinel that are made do not raise
(`g` is the answer of `r > 0`, `l` the answer of `r < 0`, needed only when `g` is false),
`Compare` returns `+1` if `g`, else `-1` if `l`, else `0`; the value is one of `-1, 0, +1`;
and when `g` is true the less-than check is not among the calls made. -/
theorem Compare_interprets_result (rt : PyRuntime) (self : PlyvelCallbackComparator)
    (a b : Slice) (s : PyState) (pa pb : Nat) (r : PyObject) (g l : Bool)
    (hclean : s.errorIndicator = false)
    (ha : rt.bytesAddr s.allocations a = some pa)
    (hb : rt.bytesAddr (s.allocations + 1) b = some pb)
    (hcall : rt.call self.comparator (PyObject.bytes pa a) (PyObject.bytes pb b) = some r)
    (hgt : richCompareValue rt r self.zero CmpOp.Py_GT = some g)
    (hlt : g = false → richCompareValue rt r self.zero CmpOp.Py_LT = some l) :
    (Compare rt self a b s).value? = some (if g then 1 else if l then -1 else 0)
    ∧ ((Compare rt self a b s).value? = some (-1) ∨ (Compare rt self a b s).value? = some 0
        ∨ (Compare rt self a b s).value? = some 1)
    ∧ (Compare rt self a b s).state.trace
        = s.trace ++ returningTrace self a b (PyObject.bytes pa a) (PyObject.bytes pb b) r g
    ∧ (g = true → Event.richCompareBool r self.zero CmpOp.Py_LT
        ∉ returningTrace self a b (PyObject.bytes pa a) (PyObject.bytes pb b) r g) := by
  cases g
  · have hl := hlt rfl
    cases l <;>
      simp [Compare, PyGILState_Ensure, PyBytes_FromStringAndSize, PyObject_CallFunctionObjArgs,
        PyObject_RichCompareBool, PyErr_Occurred, Py_DECREF, PyGILState_Release, PyState.log,
        Outcome.value?, Outcome.state, returningTrace, ha, hb, hcall, hgt, hl, hclean]
  · simp [Compare, PyGILState_Ensure, PyBytes_FromStringAndSize, PyObject_CallFunctionObjArgs,
      PyObject_RichCompareBool, PyErr_Occurred, Py_DECREF, PyGILState_Release, PyState.log,
      Outcome.value?, Outcome.state, returningTrace, ha, hb, hcall, hgt, hclean]

/-- C1 at a concrete input: the result is an object for which both `r > 0` and `r < 0`
hold, and `Compare` returns `+1`. -/
theorem Compare_interprets_result_witness :
    (Compare (scriptedRuntime (some (PyObject.object 50)) (some true) (some true)
        (fun _ => false)) sampleAdapter [1, 2] [3] bootState).value? = some 1 :=
  (Compare_interprets_result
    (scriptedRuntime (some (PyObject.object 50)) (some true) (some true) (fun _ => false))
    sampleAdapter [1, 2] [3] bootState 10 11 (PyObject.object 50) true true
    rfl rfl rfl rfl rfl (fun h => by cases h)).1

/-- `bailout` does not return. -/
theorem bailout_ne_returned {α : Type} (self : PlyvelCallbackComparator) (message : String)
    (s s' : PyState) (v : α) : bailout self message s ≠ Outcome.returned v s' := by
  intro h
  unfold bailout at h
  cases hp : PyErr_Print s with
  | returned u s1 => simp [hp] at h
  | aborted s1 => simp [hp] at h
  | exited status s1 => simp [hp] at h

/-- C3, at an input where the code departs from it: the callable returns an object whose
greater-than check against the sentinel raises, and whose less-than check clears the
pending error while it runs and answers.  The `-1` of the first check is not tested, the
second check is made, `PyErr_Occurred` then finds no error, and `Compare` returns `0`
(less-than false) or `-1` (less-than true) instead of ending the process: nothing is
written to `std::cerr` and the calls made are those of a call that returns. -/
theorem Compare_comparison_error_lost :
    richCompareValue (clearingRuntime false) (PyObject.object 50) sampleAdapter.zero
        CmpOp.Py_GT = none
    ∧ (PyObject_RichCompareBool (clearingRuntime false) (PyObject.object 50)
        sampleAdapter.zero CmpOp.Py_GT bootState).1 = -1
    ∧ (Compare (clearingRuntime false) sampleAdapter [1, 2] [3] bootState).value? = some 0
    ∧ (Compare (clearingRuntime false) sampleAdapter [1, 2] [3] bootState).isTerminated = false
    ∧ (Compare (clearingRuntime false) sampleAdapter [1, 2] [3] bootState).state.stderr = []
    ∧ (Compare (clearingRuntime false) sampleAdapter [1, 2] [3] bootState).state.trace
        = returningTrace sampleAdapter [1, 2] [3] (PyObject.bytes 10 [1, 2])
            (PyObject.bytes 11 [3]) (PyObject.object 50) false
    ∧ (Compare (clearingRuntime true) sampleAdapter [1, 2] [3] bootState).value? = some (-1)
    ∧ (Compare (clearingRuntime true) sampleAdapter [1, 2] [3] bootState).isTerminated
        = false := by
  refine ⟨rfl, rfl, rfl, rfl, rfl, ?_, rfl, rfl⟩
  decide

/-- C4: when the conversion of `a`, of `b`, or of both fails to allocate, `Compare` does
not return: the process is aborted with the diagnostic of the allocation failure, and the
calls made are exactly the guard, the two conversions, `PyErr_Print` and `abort`, so the
callable is not invoked. -/
theorem Compare_allocation_fails (rt : PyRuntime) (self : PlyvelCallbackComparator)
    (a b : Slice) (s : PyState)
    (hfail : rt.bytesAddr s.allocations a = none
      ∨ rt.bytesAddr (s.allocations + 1) b = none) :
    (Compare rt self a b s).isAborted = true
    ∧ (Compare rt self a b s).value? = none
    ∧ (Compare rt self a b s).state.stderr
        = s.stderr ++ ["FATAL ERROR: Plyvel comparator could not allocate byte strings",
                       "Aborting to avoid database corruption..."]
    ∧ (Compare rt self a b s).state.trace
        = s.trace ++ [Event.gilEnsure, Event.bytesFromStringAndSize a,
            Event.bytesFromStringAndSize b, Event.errPrint, Event.abort]
    ∧ (∀ f x y, Event.callFunctionObjArgs f x y
        ∉ (Compare rt self a b s).state.trace.drop s.trace.length) := by
  cases ha : rt.bytesAddr s.allocations a with
  | none =>
    cases hb : rt.bytesAddr (s.allocations + 1) b <;>
    · simp [Compare, PyGILState_Ensure, PyBytes_FromStringAndSize,
        bailout, PyErr_Print, PyState.log, Outcome.value?, Outcome.state, Outcome.isAborted,
        ha, hb]
  | some pa =>
    have hb : rt.bytesAddr (s.allocations + 1) b = none := by
      rcases hfail with h | h
      · rw [ha] at h; cases h
      · exact h
    simp [Compare, PyGILState_Ensure, PyBytes_FromStringAndSize,
      bailout, PyErr_Print, PyState.log, Outcome.value?, Outcome.state, Outcome.isAborted,
      ha, hb]

/-- C4 at a concrete input: the first conversion succeeds, the second fails. -/
theorem Compare_allocation_fails_witness :
    (Compare (scriptedRuntime (some (PyObject.long 101 1)) none none (fun k => decide (k = 1)))
        sampleAdapter [1, 2] [3] bootState).isAborted = true
    ∧ (Compare (scriptedRuntime (some (PyObject.long 101 1)) none none (fun k => decide (k = 1)))
        sampleAdapter [1, 2] [3] bootState).value? = none :=
  ⟨(Compare_allocation_fails
      (scriptedRuntime (some (PyObject.long 101 1)) none none (fun k => decide (k = 1)))
      sampleAdapter [1, 2] [3] bootState (Or.inr rfl)).1,
   (Compare_allocation_fails
      (scriptedRuntime (some (PyObject.long 101 1)) none none (fun k => decide (k = 1)))
      sampleAdapter [1, 2] [3] bootState (Or.inr rfl)).2.1⟩

/-! ### Facts about the lexicographic callable -/

/-- Swapping the arguments negates `lexCompare`. -/
theorem lexCompare_swap (x y : List Byte) : lexCompare y x = - lexCompare x y := by
  induction x generalizing y with
  | nil => cases y <;> simp [lexCompare]
  | cons u us ih =>
    cases y with
    | nil => simp [lexCompare]
    | cons v vs =>
      simp only [lexCompare]
      by_cases h1 : u < v
      · have h2 : ¬ v < u := not_lt_of_lt h1
        simp [h1, h2]
      · by_cases h2 : v < u
        · simp [h1, h2]
        · simp [h1, h2, ih]

/-- `lexCompare` is negative exactly on lexicographically smaller first arguments. -/
theorem lexCompare_neg_iff (x y : List Byte) :
    lexCompare x y < 0 ↔ List.Lex (fun u v => u < v) x y := by
  induction x generalizing y with
  | nil =>
    cases y with
    | nil => simp [lexCompare]
    | cons v vs => simp [lexCompare, List.Lex.nil]
  | cons u us ih =>
    cases y with
    | nil => simp [lexCompare]
    | cons v vs =>
      simp only [lexCompare]
      by_cases h1 : u < v
      · simp [h1, List.Lex.rel h1]
      · by_cases h2 : v < u
        · simp only [h1, h2, if_false, if_true]
          constructor
          · intro h; omega
          · intro h
            cases h with
            | cons h => exact absurd h2 (lt_irrefl _)
            | rel h => exact absurd h h1
        · have huv : u = v := le_antisymm (not_lt.mp h2) (not_lt.mp h1)
          subst huv
          simp only [h1, if_false, ih]
          constructor
          · intro h; exact List.Lex.cons h
          · intro h
            cases h with
            | cons h => exact h
            | rel h => exact absurd h h1

/-- `lexCompare` is zero exactly on equal arguments. -/
theorem lexCompare_zero_iff (x y : List Byte) : lexCompare x y = 0 ↔ x = y := by
  induction x generalizing y with
  | nil => cases y <;> simp [lexCompare]
  | cons u us ih =>
    cases y with
    | nil => simp [lexCompare]
    | cons v vs =>
      simp only [lexCompare]
      by_cases h1 : u < v
      · have hne : u ≠ v := ne_of_lt h1
        simp [h1, hne]
      · by_cases h2 : v < u
        · have hne : u ≠ v := (ne_of_lt h2).symm
          simp [h1, h2, hne]
        · have huv : u = v := le_antisymm (not_lt.mp h2) (not_lt.mp h1)
          subst huv
          simp [h1, ih]

/-- `lexCompare` is positive exactly on lexicographically greater first arguments. -/
theorem lexCompare_pos_iff (x y : List Byte) :
    0 < lexCompare x y ↔ List.Lex (fun u v => u < v) y x := by
  rw [← lexCompare_neg_iff, lexCompare_swap x y]
  omega

/-- The lexicographic callable is a consistent comparator. -/
theorem lexRuntime_consistent (f : PyObject) (p : Nat) :
    ConsistentComparator lexRuntime f (PyObject.long p 0) := by
  intro px py qx qy x y
  refine ⟨_, _, decide (0 < lexCompare x y), decide (lexCompare x y < 0), rfl, rfl, rfl, rfl,
    ?_, ?_⟩
  · simp [richCompareValue, lexCompare_swap x y]
  · simp [richCompareValue, lexCompare_swap x y]

/-- No int is both greater and less than zero. -/
theorem lexRuntime_exclusive (f : PyObject) (p : Nat) :
    ExclusiveResults lexRuntime f (PyObject.long p 0) := by
  intro px py x y r hr
  have hr' : some (PyObject.long (smallIntAddr (lexCompare x y)) (lexCompare x y)) = some r := hr
  injection hr' with hr'
  subst hr'
  simp only [richCompareValue, Option.some.injEq, decide_eq_true_eq]
  omega

/-- The callables of `lexRuntime` implement plain lexicographic byte ordering. -/
theorem lexRuntime_lexicographic (f : PyObject) : LexicographicComparator lexRuntime f := by
  intro px py x y
  exact ⟨_, lexCompare x y, rfl, lexCompare_neg_iff x y, lexCompare_zero_iff x y,
    lexCompare_pos_iff x y⟩

/-! ### Symmetry and the lexicographic comparator -/

/-- The value `Compare` returns when nothing fails (shared by the results below). -/
theorem Compare_value_of_answers (rt : PyRuntime) (self : PlyvelCallbackComparator)
    (a b : Slice) (s : PyState) (pa pb : Nat) (r : PyObject) (g l : Bool)
    (hclean : s.errorIndicator = false)
    (ha : rt.bytesAddr s.allocations a = some pa)
    (hb : rt.bytesAddr (s.allocations + 1) b = some pb)
    (hcall : rt.call self.comparator (PyObject.bytes pa a) (PyObject.bytes pb b) = some r)
    (hgt : richCompareValue rt r self.zero CmpOp.Py_GT = some g)
    (hlt : richCompareValue rt r self.zero CmpOp.Py_LT = some l) :
    (Compare rt self a b s).value? = some (if g then 1 else if l then -1 else 0) := by
  cases g <;> cases l <;>
    simp [Compare, PyGILState_Ensure, PyBytes_FromStringAndSize, PyObject_CallFunctionObjArgs,
      PyObject_RichCompareBool, PyErr_Occurred, Py_DECREF, PyGILState_Release, PyState.log,
      Outcome.value?, ha, hb, hcall, hgt, hlt, hclean]

/-- C5 as stated fails: with a consistent comparator whose result is both greater and less
than zero, `Compare([1], [2])` and `Compare([2], [1])` both return `+1`, so the first is
not the negation of the second. -/
theorem Compare_antisymmetry_counterexample :
    ConsistentComparator bothRuntime sampleAdapter.comparator sampleAdapter.zero
    ∧ (Compare bothRuntime sampleAdapter [1] [2] bootState).value? = some 1
    ∧ (Compare bothRuntime sampleAdapter [2] [1] bootState).value? = some 1
    ∧ ¬ (∃ v : Int, (Compare bothRuntime sampleAdapter [1] [2] bootState).value? = some v
          ∧ (Compare bothRuntime sampleAdapter [2] [1] bootState).value? = some (-v)) := by
  refine ⟨?_, rfl, rfl, ?_⟩
  · intro px py qx qy x y
    exact ⟨PyObject.object 50, PyObject.object 50, true, true, rfl, rfl, rfl, rfl, rfl, rfl⟩
  · rintro ⟨v, h1, h2⟩
    have e1 : (Compare bothRuntime sampleAdapter [1] [2] bootState).value? = some 1 := rfl
    have e2 : (Compare bothRuntime sampleAdapter [2] [1] bootState).value? = some 1 := rfl
    rw [e1] at h1
    rw [e2] at h2
    injection h1 with h1
    injection h2 with h2
    omega

/-- C5, amended: with a consistent comparator none of whose results is both greater and
less than zero, when no Python error is pending and the byte strings are allocated,
`Compare(a, b)` returns some `v` and `Compare(b, a)` returns `-v`. -/
theorem Compare_antisymmetric (rt : PyRuntime) (self : PlyvelCallbackComparator)
    (a b : Slice) (s s' : PyState) (pa pb qa qb : Nat)
    (hclean : s.errorIndicator = false) (hclean' : s'.errorIndicator = false)
    (ha : rt.bytesAddr s.allocations a = some pa)
    (hb : rt.bytesAddr (s.allocations + 1) b = some pb)
    (hb' : rt.bytesAddr s'.allocations b = some qb)
    (ha' : rt.bytesAddr (s'.allocations + 1) a = some qa)
    (hcons : ConsistentComparator rt self.comparator self.zero)
    (hexcl : ExclusiveResults rt self.comparator self.zero) :
    ∃ v : Int, (Compare rt self a b s).value? = some v
      ∧ (Compare rt self b a s').value? = some (-v) := by
  obtain ⟨r, r', g, l, hr, hr', hg, hl, hg', hl'⟩ := hcons pa pb qa qb a b
  have h1 := Compare_value_of_answers rt self a b s pa pb r g l hclean ha hb hr hg hl
  have h2 := Compare_value_of_answers rt self b a s' qb qa r' l g hclean' hb' ha' hr' hg' hl'
  have hx := hexcl pa pb a b r hr
  refine ⟨_, h1, ?_⟩
  rw [h2]
  cases g <;> cases l <;> simp_all

/-- C5 amended, at a concrete input: the lexicographic comparator on `[1]` and `[2]`. -/
theorem Compare_antisymmetric_witness :
    ∃ v : Int, (Compare lexRuntime sampleAdapter [1] [2] bootState).value? = some v
      ∧ (Compare lexRuntime sampleAdapter [2] [1] bootState).value? = some (-v) :=
  Compare_antisymmetric lexRuntime sampleAdapter [1] [2] bootState bootState 10 11 11 10
    rfl rfl rfl rfl rfl rfl (lexRuntime_consistent _ 100) (lexRuntime_exclusive _ 100)

/-- C6: for an adapter built by the constructor around a callable that implements plain
lexicographic byte ordering, when no Python error is pending and the byte strings are
allocated, `Compare(a, b)` is `-1` when `a` is lexicographically less than `b`, `0` when
`a = b` and `+1` when `b` is lexicographically less than `a`; and the callable was called
with the bytes object of the whole of `a` first and that of the whole of `b` second. -/
theorem Compare_lexicographic (rt : PyRuntime) (name : String) (f : PyObject)
    (s0 s : PyState) (a b : Slice) (pa pb : Nat)
    (hlex : LexicographicComparator rt f)
    (hclean : s.errorIndicator = false)
    (ha : rt.bytesAddr s.allocations a = some pa)
    (hb : rt.bytesAddr (s.allocations + 1) b = some pb) :
    (List.Lex (fun u v => u < v) a b →
      (Compare rt (NewPlyvelCallbackComparator rt name f s0).1 a b s).value? = some (-1))
    ∧ (a = b →
      (Compare rt (NewPlyvelCallbackComparator rt name f s0).1 a b s).value? = some 0)
    ∧ (List.Lex (fun u v => u < v) b a →
      (Compare rt (NewPlyvelCallbackComparator rt name f s0).1 a b s).value? = some 1)
    ∧ Event.callFunctionObjArgs f (PyObject.bytes pa a) (PyObject.bytes pb b)
        ∈ (Compare rt (NewPlyvelCallbackComparator rt name f s0).1 a b s).state.trace := by
  obtain ⟨p, n, hcall, hneg, hzero, hpos⟩ := hlex pa pb a b
  have hv := Compare_value_of_answers rt (NewPlyvelCallbackComparator rt name f s0).1 a b s
    pa pb (PyObject.long p n) (decide (0 < n)) (decide (n < 0)) hclean ha hb hcall rfl rfl
  refine ⟨?_, ?_, ?_, ?_⟩
  · intro h
    have hn : n < 0 := hneg.mpr h
    have hn' : ¬ 0 < n := by omega
    rw [hv]; simp [hn, hn']
  · intro h
    have hn : n = 0 := hzero.mpr h
    rw [hv]; simp [hn]
  · intro h
    have hn : 0 < n := hpos.mpr h
    rw [hv]; simp [hn]
  · have hcall' : rt.call (NewPlyvelCallbackComparator rt name f s0).1.comparator
        (PyObject.bytes pa a) (PyObject.bytes pb b) = some (PyObject.long p n) := hcall
    by_cases hp : 0 < n
    · have hg : richCompareValue rt (PyObject.long p n)
          (NewPlyvelCallbackComparator rt name f s0).1.zero CmpOp.Py_GT = some true := by
        simp [richCompareValue, NewPlyvelCallbackComparator, PyLong_FromLong, hp]
      simp [Compare, PyGILState_Ensure, PyBytes_FromStringAndSize,
        PyObject_CallFunctionObjArgs, PyObject_RichCompareBool, PyErr_Occurred, Py_DECREF,
        PyGILState_Release, PyState.log, Outcome.state, ha, hb, hcall', hg, hclean]
      simp [NewPlyvelCallbackComparator]
    · have hg : richCompareValue rt (PyObject.long p n)
          (NewPlyvelCallbackComparator rt name f s0).1.zero CmpOp.Py_GT = some false := by
        simp [richCompareValue, NewPlyvelCallbackComparator, PyLong_FromLong, hp]
      by_cases hq : n < 0
      · have hl : richCompareValue rt (PyObject.long p n)
            (NewPlyvelCallbackComparator rt name f s0).1.zero CmpOp.Py_LT = some true := by
          simp [richCompareValue, NewPlyvelCallbackComparator, PyLong_FromLong, hq]
        simp [Compare, PyGILState_Ensure, PyBytes_FromStringAndSize,
          PyObject_CallFunctionObjArgs, PyObject_RichCompareBool, PyErr_Occurred, Py_DECREF,
          PyGILState_Release, PyState.log, Outcome.state, ha, hb, hcall', hg, hl, hclean]
        simp [NewPlyvelCallbackComparator]
      · have hl : richCompareValue rt (PyObject.long p n)
            (NewPlyvelCallbackComparator rt name f s0).1.zero CmpOp.Py_LT = some false := by
          simp [richCompareValue, NewPlyvelCallbackComparator, PyLong_FromLong, hq]
        simp [Compare, PyGILState_Ensure, PyBytes_FromStringAndSize,
          PyObject_CallFunctionObjArgs, PyObject_RichCompareBool, PyErr_Occurred, Py_DECREF,
          PyGILState_Release, PyState.log, Outcome.state, ha, hb, hcall', hg, hl, hclean]
        simp [NewPlyvelCallbackComparator]

/-- C6 at the inputs of the specification: `Compare("apple","banana") = -1`,
`Compare("banana","apple") = 1`, `Compare("x","x") = 0`, and a key with a zero byte
against the empty key. -/
theorem Compare_lexicographic_witness :
    (Compare lexRuntime (NewPlyvelCallbackComparator lexRuntime "lex" (PyObject.object 7)
        bootState).1 apple banana bootState).value? = some (-1)
    ∧ (Compare lexRuntime (NewPlyvelCallbackComparator lexRuntime "lex" (PyObject.object 7)
        bootState).1 banana apple bootState).value? = some 1
    ∧ (Compare lexRuntime (NewPlyvelCallbackComparator lexRuntime "lex" (PyObject.object 7)
        bootState).1 [120] [120] bootState).value? = some 0
    ∧ (Compare lexRuntime (NewPlyvelCallbackComparator lexRuntime "lex" (PyObject.object 7)
        bootState).1 [] [0, 0] bootState).value? = some (-1) :=
  ⟨(Compare_lexicographic lexRuntime "lex" (PyObject.object 7) bootState bootState
      apple banana 10 11 (lexRuntime_lexicographic _) rfl rfl rfl).1
      (List.Lex.rel (by decide)),
   (Compare_lexicographic lexRuntime "lex" (PyObject.object 7) bootState bootState
      banana apple 10 11 (lexRuntime_lexicographic _) rfl rfl rfl).2.2.1
      (List.Lex.rel (by decide)),
   (Compare_lexicographic lexRuntime "lex" (PyObject.object 7) bootState bootState
      [120] [120] 10 11 (lexRuntime_lexicographic _) rfl rfl rfl).2.1 rfl,
   (Compare_lexicographic lexRuntime "lex" (PyObject.object 7) bootState bootState
      [] [0, 0] 10 11 (lexRuntime_lexicographic _) rfl rfl rfl).1 List.Lex.nil⟩

/-! ### The name and the two empty methods -/

/-- Every name reply of a sequence of calls on the adapter is the adapter's name. -/
theorem serveAll_names (rt : PyRuntime) (self : PlyvelCallbackComparator)
    (qs : List Request) (s : PyState) (n : String)
    (h : Reply.name n ∈ (serveAll rt self qs s).1) : n = self.name := by
  induction qs generalizing s with
  | nil => simp [serveAll] at h
  | cons q qs ih =>
    unfold serveAll at h
    cases hq : serve rt self q s with
    | aborted s1 => simp [hq] at h
    | exited status s1 => simp [hq] at h
    | returned r s1 =>
      simp only [hq, List.mem_cons] at h
      rcases h with h | h
      · cases q with
        | name =>
          simp only [serve, Name] at hq
          injection hq with hr _
          rw [← hr] at h
          injection h
        | compare a b =>
          simp only [serve] at hq
          cases hc : Compare rt self a b s with
          | returned v s2 =>
            rw [hc] at hq
            injection hq with hr _
            rw [← hr] at h
            cases h
          | aborted s2 =>
            rw [hc] at hq
            cases hq
          | exited status s2 =>
            rw [hc] at hq
            cases hq
        | findShortestSeparator start limit =>
          simp only [serve] at hq
          injection hq with hr _
          rw [← hr] at h
          cases h
        | findShortSuccessor key =>
          simp only [serve] at hq
          injection hq with hr _
          rw [← hr] at h
          cases h
      · exact ih s1 h

/-- C7: the adapter built by the constructor stores the name it was given; `Name()` returns
it in every state; and in every sequence of `Name`, `Compare`, `FindShortestSeparator` and
`FindShortSuccessor` calls that follows the construction, every reply of `Name` is that
string. -/
theorem Name_is_constructor_name (rt : PyRuntime) (name : String) (f : PyObject)
    (s0 : PyState) (qs : List Request) :
    (NewPlyvelCallbackComparator rt name f s0).1.name = name
    ∧ (∀ s, (Name (NewPlyvelCallbackComparator rt name f s0).1 s).1 = name)
    ∧ (∀ n, Reply.name n ∈ (serveAll rt (NewPlyvelCallbackComparator rt name f s0).1 qs
          (NewPlyvelCallbackComparator rt name f s0).2).1 → n = name) := by
  refine ⟨rfl, fun _ => rfl, ?_⟩
  intro n h
  exact serveAll_names rt _ qs _ n h

/-- C7 at a concrete sequence: `Name`, `Compare("apple","banana")`, `FindShortSuccessor`,
`Name` give the name, `-1`, the untouched buffer and the name again. -/
theorem Name_is_constructor_name_witness :
    (serveAll lexRuntime (NewPlyvelCallbackComparator lexRuntime "lex" (PyObject.object 7)
        bootState).1
      [Request.name, Request.compare apple banana, Request.findShortSuccessor [1, 2],
       Request.name]
      (NewPlyvelCallbackComparator lexRuntime "lex" (PyObject.object 7) bootState).2).1
      = [Reply.name "lex", Reply.compare (-1), Reply.buffer [1, 2], Reply.name "lex"]
    ∧ (∀ n, Reply.name n ∈ (serveAll lexRuntime
          (NewPlyvelCallbackComparator lexRuntime "lex" (PyObject.object 7) bootState).1
          [Request.name, Request.compare apple banana, Request.findShortSuccessor [1, 2],
           Request.name]
          (NewPlyvelCallbackComparator lexRuntime "lex" (PyObject.object 7) bootState).2).1
        → n = "lex") :=
  ⟨by decide,
   (Name_is_constructor_name lexRuntime "lex" (PyObject.object 7) bootState
      [Request.name, Request.compare apple banana, Request.findShortSuccessor [1, 2],
       Request.name]).2.2⟩

/-- C8: `FindShortestSeparator` and `FindShortSuccessor` do nothing: the buffer handed back
is the buffer passed in, and the state is the state before the call (so no call was made,
to the callable or to anything else, and no count changed); the adapter is only read. -/
theorem FindShort_noop (self : PlyvelCallbackComparator) (start key : List Byte)
    (limit : Slice) (s : PyState) :
    FindShortestSeparator self start limit s = (start, s)
    ∧ FindShortSuccessor self key s = (key, s)
    ∧ (FindShortestSeparator self start limit s).2.trace = s.trace
    ∧ (FindShortSuccessor self key s).2.trace = s.trace :=
  ⟨rfl, rfl, rfl, rfl⟩

/-! ### Reference counts -/

set_option maxHeartbeats 4000000 in
/-- What is known of a `Compare` call that returned: both conversions and the call
succeeded, the calls made are those of `returningTrace`, the guard is back where it was,
and every count the callable leaves alone is what it was before the call. -/
theorem Compare_returned_inv (rt : PyRuntime) (self : PlyvelCallbackComparator)
    (a b : Slice) (s s' : PyState) (v : Int)
    (h : Compare rt self a b s = Outcome.returned v s') :
    ∃ (pa pb : Nat) (r : PyObject) (g : Bool),
      rt.bytesAddr s.allocations a = some pa
      ∧ rt.bytesAddr (s.allocations + 1) b = some pb
      ∧ rt.call self.comparator (PyObject.bytes pa a) (PyObject.bytes pb b) = some r
      ∧ s'.trace = s.trace
          ++ returningTrace self a b (PyObject.bytes pa a) (PyObject.bytes pb b) r g
      ∧ s'.gilDepth = s.gilDepth
      ∧ ∀ p, (∀ x y refs, rt.callRefs self.comparator x y refs p = refs p) →
          s'.refcnt p = s.refcnt p := by
  cases ha : rt.bytesAddr s.allocations a with
  | none =>
    cases hb : rt.bytesAddr (s.allocations + 1) b <;>
    · simp [Compare, PyGILState_Ensure, PyBytes_FromStringAndSize, ha, hb] at h
      exact absurd h (bailout_ne_returned _ _ _ _ _)
  | some pa =>
    cases hb : rt.bytesAddr (s.allocations + 1) b with
    | none =>
      simp [Compare, PyGILState_Ensure, PyBytes_FromStringAndSize, ha, hb] at h
      exact absurd h (bailout_ne_returned _ _ _ _ _)
    | some pb =>
      cases hcall : rt.call self.comparator (PyObject.bytes pa a) (PyObject.bytes pb b) with
      | none =>
        simp [Compare, PyGILState_Ensure, PyBytes_FromStringAndSize,
          PyObject_CallFunctionObjArgs, ha, hb, hcall] at h
        exact absurd h (bailout_ne_returned _ _ _ _ _)
      | some r =>
        cases hg : richCompareValue rt r self.zero CmpOp.Py_GT with
        | none =>
          cases hl : richCompareValue rt r self.zero CmpOp.Py_LT with
          | none =>
            simp [Compare, PyGILState_Ensure, PyBytes_FromStringAndSize,
              PyObject_CallFunctionObjArgs, PyObject_RichCompareBool, PyErr_Occurred,
              PyState.log, ha, hb, hcall, hg, hl] at h
            exact absurd h (bailout_ne_returned _ _ _ _ _)
          | some l =>
            cases l
            ·
              refine ⟨pa, pb, r, false, rfl, rfl, hcall, ?_⟩
              simp [Compare, PyGILState_Ensure, PyBytes_FromStringAndSize,
                PyObject_CallFunctionObjArgs, PyObject_RichCompareBool, PyErr_Occurred,
                PyState.log, Py_DECREF, PyGILState_Release, ha, hb, hcall, hg, hl] at h
              split at h
              · exact absurd h (bailout_ne_returned _ _ _ _ _)
              · simp at h
                obtain ⟨-, hs⟩ := h
                subst hs
                refine ⟨by simp [returningTrace], by simp, ?_⟩
                intro p hp
                simp only [hp, PyObject.addr]
                split_ifs <;> omega
            ·
              refine ⟨pa, pb, r, false, rfl, rfl, hcall, ?_⟩
              simp [Compare, PyGILState_Ensure, PyBytes_FromStringAndSize,
                PyObject_CallFunctionObjArgs, PyObject_RichCompareBool, PyErr_Occurred,
                PyState.log, Py_DECREF, PyGILState_Release, ha, hb, hcall, hg, hl] at h
              split at h
              · exact absurd h (bailout_ne_returned _ _ _ _ _)
              · simp at h
                obtain ⟨-, hs⟩ := h
                subst hs
                refine ⟨by simp [returningTrace], by simp, ?_⟩
                intro p hp
                simp only [hp, PyObject.addr]
                split_ifs <;> omega
        | some g =>
          cases g
          · cases hl : richCompareValue rt r self.zero CmpOp.Py_LT with
            | none =>
              simp [Compare, PyGILState_Ensure, PyBytes_FromStringAndSize,
                PyObject_CallFunctionObjArgs, PyObject_RichCompareBool, PyErr_Occurred,
                PyState.log, ha, hb, hcall, hg, hl] at h
              exact absurd h (bailout_ne_returned _ _ _ _ _)
            | some l =>
              cases l
              ·
                refine ⟨pa, pb, r, false, rfl, rfl, hcall, ?_⟩
                simp [Compare, PyGILState_Ensure, PyBytes_FromStringAndSize,
                  PyObject_CallFunctionObjArgs, PyObject_RichCompareBool, PyErr_Occurred,
                  PyState.log, Py_DECREF, PyGILState_Release, ha, hb, hcall, hg, hl] at h
                split at h
                · exact absurd h (bailout_ne_returned _ _ _ _ _)
                · simp at h
                  obtain ⟨-, hs⟩ := h
                  subst hs
                  refine ⟨by simp [returningTrace], by simp, ?_⟩
                  intro p hp
                  simp only [hp, PyObject.addr]
                  split_ifs <;> omega
              ·
                refine ⟨pa, pb, r, false, rfl, rfl, hcall, ?_⟩
                simp [Compare, PyGILState_Ensure, PyBytes_FromStringAndSize,
                  PyObject_CallFunctionObjArgs, PyObject_RichCompareBool, PyErr_Occurred,
                  PyState.log, Py_DECREF, PyGILState_Release, ha, hb, hcall, hg, hl] at h
                split at h
                · exact absurd h (bailout_ne_returned _ _ _ _ _)
                · simp at h
                  obtain ⟨-, hs⟩ := h
                  subst hs
                  refine ⟨by simp [returningTrace], by simp, ?_⟩
                  intro p hp
                  simp only [hp, PyObject.addr]
                  split_ifs <;> omega
          ·
            refine ⟨pa, pb, r, true, rfl, rfl, hcall, ?_⟩
            simp [Compare, PyGILState_Ensure, PyBytes_FromStringAndSize,
              PyObject_CallFunctionObjArgs, PyObject_RichCompareBool, PyErr_Occurred,
              PyState.log, Py_DECREF, PyGILState_Release, ha, hb, hcall, hg] at h
            split at h
            · exact absurd h (bailout_ne_returned _ _ _ _ _)
            · simp at h
              obtain ⟨-, hs⟩ := h
              subst hs
              refine ⟨by simp [returningTrace], by simp, ?_⟩
              intro p hp
              simp only [hp, PyObject.addr]
              split_ifs <;> omega

/-- A call that returned left alone every count the callable leaves alone. -/
theorem serve_refcnt (rt : PyRuntime) (self : PlyvelCallbackComparator) (q : Request)
    (s s' : PyState) (r : Reply) (p : Nat)
    (hp : ∀ x y refs, rt.callRefs self.comparator x y refs p = refs p)
    (h : serve rt self q s = Outcome.returned r s') : s'.refcnt p = s.refcnt p := by
  cases q with
  | name =>
    simp only [serve, Name] at h
    injection h with _ hs
    rw [← hs]
  | compare a b =>
    simp only [serve] at h
    cases hc : Compare rt self a b s with
    | returned v s2 =>
      rw [hc] at h
      injection h with _ hs
      obtain ⟨_, _, _, _, _, _, _, _, _, hfr⟩ := Compare_returned_inv rt self a b s s2 v hc
      rw [← hs]
      exact hfr p hp
    | aborted s2 =>
      rw [hc] at h
      cases h
    | exited status s2 =>
      rw [hc] at h
      cases h
  | findShortestSeparator start limit =>
    simp only [serve, FindShortestSeparator] at h
    injection h with _ hs
    rw [← hs]
  | findShortSuccessor key =>
    simp only [serve, FindShortSuccessor] at h
    injection h with _ hs
    rw [← hs]

/-- A sequence of calls that returned left alone every count the callable leaves alone. -/
theorem serveAll_refcnt (rt : PyRuntime) (self : PlyvelCallbackComparator) (qs : List Request)
    (s s' : PyState) (p : Nat)
    (hp : ∀ x y refs, rt.callRefs self.comparator x y refs p = refs p)
    (h : (serveAll rt self qs s).2 = Outcome.returned () s') : s'.refcnt p = s.refcnt p := by
  induction qs generalizing s with
  | nil =>
    simp only [serveAll] at h
    injection h with _ hs
    rw [← hs]
  | cons q qs ih =>
    unfold serveAll at h
    cases hq : serve rt self q s with
    | aborted s1 =>
      rw [hq] at h
      cases h
    | exited status s1 =>
      rw [hq] at h
      cases h
    | returned r s1 =>
      rw [hq] at h
      rw [ih s1 h]
      exact serve_refcnt rt self q s s1 r p hp hq

/-- C10: for an adapter built by the constructor around the callable `f`, whose runs leave
the counts of `f` and of the int zero alone, and which is not the int zero itself:
* the constructor raises the count of `f` by one and the count of the sentinel by one;
* a `Compare` call that returns leaves both counts as they were, made exactly the calls of
  `returningTrace`, in which the result and the two byte strings it created are each
  released once and the guard is taken once and released once;
* `Name`, `FindShortestSeparator` and `FindShortSuccessor` leave the state as it was;
* after any sequence of calls that returned, both counts are still one above what they were
  before the construction, and the destructor then brings both back to that;
* the destructor lowers each of the two counts by one. -/
theorem references_held (rt : PyRuntime) (name : String) (f : PyObject) (s0 : PyState)
    (hf : ∀ x y refs, rt.callRefs f x y refs f.addr = refs f.addr)
    (hz : ∀ x y refs, rt.callRefs f x y refs (rt.longAddr 0) = refs (rt.longAddr 0))
    (hne : f.addr ≠ rt.longAddr 0) :
    ((NewPlyvelCallbackComparator rt name f s0).1.comparator = f
      ∧ (NewPlyvelCallbackComparator rt name f s0).1.zero.addr = rt.longAddr 0
      ∧ (NewPlyvelCallbackComparator rt name f s0).2.refcnt f.addr = s0.refcnt f.addr + 1
      ∧ (NewPlyvelCallbackComparator rt name f s0).2.refcnt (rt.longAddr 0)
          = s0.refcnt (rt.longAddr 0) + 1)
    ∧ (∀ (a b : Slice) (s s' : PyState) (v : Int),
        Compare rt (NewPlyvelCallbackComparator rt name f s0).1 a b s = Outcome.returned v s' →
        s'.refcnt f.addr = s.refcnt f.addr
        ∧ s'.refcnt (rt.longAddr 0) = s.refcnt (rt.longAddr 0)
        ∧ s'.gilDepth = s.gilDepth
        ∧ ∃ (pa pb : Nat) (r : PyObject) (g : Bool),
            rt.bytesAddr s.allocations a = some pa
            ∧ rt.bytesAddr (s.allocations + 1) b = some pb
            ∧ rt.call f (PyObject.bytes pa a) (PyObject.bytes pb b) = some r
            ∧ s'.trace = s.trace ++ returningTrace (NewPlyvelCallbackComparator rt name f s0).1
                a b (PyObject.bytes pa a) (PyObject.bytes pb b) r g
            ∧ decrefs (returningTrace (NewPlyvelCallbackComparator rt name f s0).1
                a b (PyObject.bytes pa a) (PyObject.bytes pb b) r g)
                = [r, PyObject.bytes pa a, PyObject.bytes pb b]
            ∧ (returningTrace (NewPlyvelCallbackComparator rt name f s0).1
                a b (PyObject.bytes pa a) (PyObject.bytes pb b) r g).count Event.gilEnsure = 1
            ∧ (returningTrace (NewPlyvelCallbackComparator rt name f s0).1
                a b (PyObject.bytes pa a) (PyObject.bytes pb b) r g).count Event.gilRelease = 1)
    ∧ (∀ (s : PyState) (start key : List Byte) (limit : Slice),
        (Name (NewPlyvelCallbackComparator rt name f s0).1 s).2 = s
        ∧ (FindShortestSeparator (NewPlyvelCallbackComparator rt name f s0).1 start limit s).2 = s
        ∧ (FindShortSuccessor (NewPlyvelCallbackComparator rt name f s0).1 key s).2 = s)
    ∧ (∀ (qs : List Request) (s' : PyState),
        (serveAll rt (NewPlyvelCallbackComparator rt name f s0).1 qs
          (NewPlyvelCallbackComparator rt name f s0).2).2 = Outcome.returned () s' →
        s'.refcnt f.addr = s0.refcnt f.addr + 1
        ∧ s'.refcnt (rt.longAddr 0) = s0.refcnt (rt.longAddr 0) + 1
        ∧ (destroy (NewPlyvelCallbackComparator rt name f s0).1 s').refcnt f.addr
            = s0.refcnt f.addr
        ∧ (destroy (NewPlyvelCallbackComparator rt name f s0).1 s').refcnt (rt.longAddr 0)
            = s0.refcnt (rt.longAddr 0))
    ∧ (∀ s : PyState,
        (destroy (NewPlyvelCallbackComparator rt name f s0).1 s).refcnt f.addr
            = s.refcnt f.addr - 1
        ∧ (destroy (NewPlyvelCallbackComparator rt name f s0).1 s).refcnt (rt.longAddr 0)
            = s.refcnt (rt.longAddr 0) - 1) := by
  have hne' : rt.longAddr 0 ≠ f.addr := fun h => hne h.symm
  have hctor : (NewPlyvelCallbackComparator rt name f s0).2.refcnt f.addr = s0.refcnt f.addr + 1
      ∧ (NewPlyvelCallbackComparator rt name f s0).2.refcnt (rt.longAddr 0)
          = s0.refcnt (rt.longAddr 0) + 1 := by
    simp [NewPlyvelCallbackComparator, Py_INCREF, PyLong_FromLong, PyEval_InitThreads, hne, hne']
  have hdtor : ∀ s : PyState,
      (destroy (NewPlyvelCallbackComparator rt name f s0).1 s).refcnt f.addr
          = s.refcnt f.addr - 1
      ∧ (destroy (NewPlyvelCallbackComparator rt name f s0).1 s).refcnt (rt.longAddr 0)
          = s.refcnt (rt.longAddr 0) - 1 := by
    intro s
    have hz0 : (PyObject.long (rt.longAddr 0) 0).addr = rt.longAddr 0 := rfl
    simp [destroy, NewPlyvelCallbackComparator, Py_DECREF, PyLong_FromLong, hz0, hne, hne']
  refine ⟨⟨rfl, rfl, hctor.1, hctor.2⟩, ?_, ?_, ?_, hdtor⟩
  · intro a b s s' v h
    obtain ⟨pa, pb, r, g, ha, hb, hcall, htr, hgil, hfr⟩ :=
      Compare_returned_inv rt _ a b s s' v h
    refine ⟨hfr _ hf, hfr _ hz, hgil, pa, pb, r, g, ha, hb, hcall, htr, ?_, ?_, ?_⟩ <;>
      cases g <;> simp [returningTrace, decrefs]
  · intro s start key limit
    exact ⟨rfl, rfl, rfl⟩
  · intro qs s' h
    have h1 := serveAll_refcnt rt _ qs _ s' f.addr hf h
    have h2 := serveAll_refcnt rt _ qs _ s' (rt.longAddr 0) hz h
    have d := hdtor s'
    refine ⟨by rw [h1, hctor.1], by rw [h2, hctor.2], ?_, ?_⟩
    · rw [d.1, h1, hctor.1]; omega
    · rw [d.2, h2, hctor.2]; omega

/-- C10 at a concrete run: around the function object at address 7 (count 1 before), the
constructor leaves the count at 2; `Name`, `Compare("apple","banana")`, `Compare("x","x")`
and `FindShortSuccessor` all return and the count is still 2; the destructor brings it
back to 1. -/
theorem references_held_witness :
    (serveAll lexRuntime (NewPlyvelCallbackComparator lexRuntime "lex" (PyObject.object 7)
        bootState).1
      [Request.name, Request.compare apple banana, Request.compare [120] [120],
       Request.findShortSuccessor [1]]
      (NewPlyvelCallbackComparator lexRuntime "lex" (PyObject.object 7) bootState).2).2.isAborted
      = false
    ∧ (NewPlyvelCallbackComparator lexRuntime "lex" (PyObject.object 7) bootState).2.refcnt 7 = 2
    ∧ (∀ (qs : List Request) (s' : PyState),
        (serveAll lexRuntime
          (NewPlyvelCallbackComparator lexRuntime "lex" (PyObject.object 7) bootState).1 qs
          (NewPlyvelCallbackComparator lexRuntime "lex" (PyObject.object 7) bootState).2).2
          = Outcome.returned () s' →
        s'.refcnt 7 = 2 ∧ s'.refcnt 100 = 2
        ∧ (destroy (NewPlyvelCallbackComparator lexRuntime "lex" (PyObject.object 7)
            bootState).1 s').refcnt 7 = 1
        ∧ (destroy (NewPlyvelCallbackComparator lexRuntime "lex" (PyObject.object 7)
            bootState).1 s').refcnt 100 = 1) :=
  ⟨by decide,
   (references_held lexRuntime "lex" (PyObject.object 7) bootState
      (fun _ _ _ => rfl) (fun _ _ _ => rfl) (by decide)).1.2.2.1,
   (references_held lexRuntime "lex" (PyObject.object 7) bootState
      (fun _ _ _ => rfl) (fun _ _ _ => rfl) (by decide)).2.2.2.1⟩

end Plyvel
